import Mathlib

/-!
Shallow embedding of the authentication core of the TaskManagment
repository: the JWT token codec (src/src/lib/auth/jwt.ts), cookie parsing
and session extraction (src/src/lib/auth/jwt.ts and the auth barrel
module), the edge middleware (src/middleware.ts), and the login and
register route handlers (src/src/app/api/auth/login/route.ts,
src/src/app/api/auth/register/route.ts).

Times are seconds since the epoch, as Nat.  The HMAC signature of a
token is modelled ideally: a signed token records the key that produced
its signature, and verification compares that key with the verification
secret.  Structural base64url/JSON decoding of a wire string is
abstracted as an explicit argument dec : String -> Option SignedToken;
dec s = none models a string that is not a structurally well formed JWT.
-/

/-- Identity claims of a session token (interface JwtPayload in
src/src/lib/auth/jwt.ts): userId and email required, name optional. -/
structure JwtPayload where
  userId : String
  email : String
  name : Option String
  deriving DecidableEq, Repr

/-- A structurally well formed signed JWT.  iat and exp are the issued-at
and expiry timestamps in seconds; sigKey abstracts the HMAC-SHA256
signature as the secret that produced it (ideal MAC: a signature
verifies against exactly the key that made it). -/
structure SignedToken where
  claims : JwtPayload
  iat : Nat
  exp : Nat
  sigKey : String
  deriving DecidableEq, Repr

/-- The user argument of createToken: { id, email, name? }. -/
structure TokenUser where
  id : String
  email : String
  name : Option String
  deriving DecidableEq, Repr

/-- jwt.sign(payload, secret, { expiresIn, algorithm: HS256 }): attach
iat = now, exp = now + expiresInSeconds, and the HMAC signature. -/
def signJwt (payload : JwtPayload) (secret : String) (now expiresInSeconds : Nat) :
    SignedToken :=
  { claims := payload, iat := now, exp := now + expiresInSeconds, sigKey := secret }

/-- createToken (src/src/lib/auth/jwt.ts lines 78-89): sign
{userId := user.id, email := user.email, name := user.name} with the
process secret, expiresIn "24h" (86400 seconds), algorithm HS256. -/
def createToken (user : TokenUser) (secret : String) (now : Nat) : SignedToken :=
  signJwt { userId := user.id, email := user.email, name := user.name } secret now 86400

/-- Model of jose.jwtVerify on a decoded token: accept iff the signature
verifies under secret and the current time is strictly before exp (jose
rejects when exp <= now).  Returns the decoded claims; rejection models
the library throwing. -/
def joseJwtVerify (t : SignedToken) (secret : String) (now : Nat) : Option JwtPayload :=
  if t.sigKey = secret ∧ now < t.exp then some t.claims else none

/-- Model of jsonwebtoken.verify on a decoded token: accept iff the
signature verifies under secret and now < exp (jsonwebtoken throws
TokenExpiredError when now >= exp). -/
def jsonwebtokenVerify (t : SignedToken) (secret : String) (now : Nat) : Option JwtPayload :=
  if t.sigKey = secret ∧ now < t.exp then some t.claims else none

/-- jose.jwtVerify on a wire string: structural decode, then verify. -/
def joseJwtVerifyStr (dec : String → Option SignedToken) (s secret : String)
    (now : Nat) : Option JwtPayload :=
  match dec s with
  | none => none
  | some t => joseJwtVerify t secret now

/-- jsonwebtoken.verify on a wire string: structural decode, then verify. -/
def jsonwebtokenVerifyStr (dec : String → Option SignedToken) (s secret : String)
    (now : Nat) : Option JwtPayload :=
  match dec s with
  | none => none
  | some t => jsonwebtokenVerify t secret now

/-- JavaScript String.split with a one-character separator, on the
character list of the string: "".split(sep) is [""], separators at the
ends produce empty segments. -/
def jsSplit (sep : Char) : List Char → List (List Char)
  | [] => [[]]
  | c :: rest =>
    match jsSplit sep rest with
    | [] => [[c]]
    | h :: t => if c = sep then [] :: h :: t else (c :: h) :: t

/-- JavaScript String.trim: drop whitespace from both ends. -/
def jsTrim (l : List Char) : List Char :=
  ((l.dropWhile Char.isWhitespace).reverse.dropWhile Char.isWhitespace).reverse

/-- One step of the cookie reduce (src/src/lib/auth/jwt.ts lines 21-25):
cookie.trim().split("=") with destructuring [key, value].  JavaScript
split breaks at EVERY "=", and the destructuring keeps elements 0 and 1;
a missing element 1 is undefined, modelled none. -/
def pieceKV (c : List Char) : String × Option String :=
  let parts := jsSplit '=' (jsTrim c)
  ((parts.headD []).asString, (parts[1]?).map List.asString)

/-- cookieHeader.split(";").reduce(...): the name/value pairs in header
order.  A malformed piece contributes a pair whose value is none; it
never aborts the parse. -/
def parseCookies (header : String) : List (String × Option String) :=
  (jsSplit ';' header.data).map pieceKV

/-- Lookup in the object built by the reduce: property assignment
overwrites, so the LAST pair with the key wins; outer none means the
property is absent. -/
def cookieGet (ps : List (String × Option String)) (k : String) : Option (Option String) :=
  ((ps.filter fun kv => kv.1 == k).getLast?).map Prod.snd

/-- cookies[auth-token] followed by the falsy test if (!token): an
absent property, an undefined value and the empty string all yield
none. -/
def getCookieToken (header : String) : Option String :=
  match cookieGet (parseCookies header) "auth-token" with
  | some (some v) => if v = "" then none else some v
  | _ => none

/-- The part of a Request the session extractors read:
request.headers.get("cookie"), none when the header is absent. -/
structure ApiRequest where
  cookieHeader : Option String
  deriving DecidableEq

/-- getUserIdFromToken (src/src/lib/auth/jwt.ts lines 13-41): cookie
header -> auth-token cookie -> jose.jwtVerify -> payload.userId; every
failure (including a verification throw, caught by the try/catch)
returns null. -/
def getUserIdFromToken (dec : String → Option SignedToken) (req : ApiRequest)
    (secret : String) (now : Nat) : Option String :=
  match req.cookieHeader with
  | none => none
  | some header =>
    match getCookieToken header with
    | none => none
    | some tok =>
      match joseJwtVerifyStr dec tok secret now with
      | none => none
      | some payload => some payload.userId

/-- getUserIdFromTokenSync (src/src/lib/auth/jwt.ts lines 46-73): same
pipeline with jsonwebtoken.verify. -/
def getUserIdFromTokenSync (dec : String → Option SignedToken) (req : ApiRequest)
    (secret : String) (now : Nat) : Option String :=
  match req.cookieHeader with
  | none => none
  | some header =>
    match getCookieToken header with
    | none => none
    | some tok =>
      match jsonwebtokenVerifyStr dec tok secret now with
      | none => none
      | some payload => some payload.userId

/-- getToken (auth barrel module lines 7-35): same pipeline with jose,
returning the whole verified payload. -/
def getToken (dec : String → Option SignedToken) (req : ApiRequest)
    (secret : String) (now : Nat) : Option JwtPayload :=
  match req.cookieHeader with
  | none => none
  | some header =>
    match getCookieToken header with
    | none => none
    | some tok =>
      match joseJwtVerifyStr dec tok secret now with
      | none => none
      | some payload => some payload

/-- publicRoutes (src/middleware.ts lines 6-14). -/
def publicRoutes : List String :=
  ["/", "/login", "/register", "/api/auth/login", "/api/auth/register",
   "/api/auth/logout", "/api/health"]

/-- protectedRoutes (src/middleware.ts lines 17-23). -/
def protectedRoutes : List String :=
  ["/dashboard", "/workspace", "/project", "/profile", "/settings"]

/-- JavaScript s.startsWith(p): p is a prefix of s, on character
lists. -/
def jsStartsWith (s p : String) : Bool :=
  List.isPrefixOf p.data s.data

/-- src/middleware.ts lines 29-31: pathname === route ||
pathname.startsWith(route + "/"). -/
def isPublicRoute (pathname : String) : Bool :=
  publicRoutes.any fun route => pathname == route || jsStartsWith pathname (route ++ "/")

/-- src/middleware.ts lines 39-41: pathname.startsWith(route), with no
separator requirement. -/
def isProtectedRoute (pathname : String) : Bool :=
  protectedRoutes.any fun route => jsStartsWith pathname route

/-- The part of a NextRequest the middleware reads: nextUrl.pathname and
request.cookies.get("auth-token")?.value. -/
structure MwRequest where
  pathname : String
  authToken : Option String
  deriving DecidableEq

/-- A redirect target: the URL path plus the optional value of the
"redirect" query parameter set on it. -/
structure RedirectURL where
  path : String
  redirectParam : Option String
  deriving DecidableEq, Repr

/-- Observable middleware outcome: NextResponse.next() with the headers
set on it, or NextResponse.redirect(url) with whether the auth-token
cookie is deleted on the response. -/
inductive MwResponse where
  | next (headers : List (String × String))
  | redirect (url : RedirectURL) (deleteAuthCookie : Bool)
  deriving DecidableEq, Repr

/-- middleware (src/middleware.ts lines 25-82): public check first, then
default-open check, then the auth-token cookie (the falsy test if
(!token) also catches an empty value), then jose verification; a
verification throw is caught and answered with a parameterless redirect
to /login plus cookie deletion. -/
def middleware (dec : String → Option SignedToken) (req : MwRequest)
    (secret : String) (now : Nat) : MwResponse :=
  if isPublicRoute req.pathname then MwResponse.next []
  else if isProtectedRoute req.pathname = false then MwResponse.next []
  else
    match req.authToken with
    | none => MwResponse.redirect { path := "/login", redirectParam := some req.pathname } false
    | some tok =>
      if tok = "" then
        MwResponse.redirect { path := "/login", redirectParam := some req.pathname } false
      else
        match joseJwtVerifyStr dec tok secret now with
        | some payload =>
          MwResponse.next [("x-user-id", payload.userId), ("x-user-email", payload.email)]
        | none => MwResponse.redirect { path := "/login", redirectParam := none } true

/-- The credential record joined by include aspNetUser (Prisma model
AspNetUser): the fields the auth handlers read or write. -/
structure AspNetUser where
  passwordHash : Option String
  securityStamp : String
  deriving DecidableEq, Repr

/-- A persisted user record with its optional credential record. -/
structure DbUser where
  id : String
  email : String
  name : Option String
  createdAt : Nat
  aspNetUser : Option AspNetUser
  deriving DecidableEq, Repr

/-- The user table. -/
structure Db where
  users : List DbUser
  deriving DecidableEq, Repr

/-- JavaScript s.toLowerCase(), character by character. -/
def jsToLowerCase (s : String) : String :=
  (s.data.map Char.toLower).asString

/-- db.user.findUnique({ where: { email: email.toLowerCase() } }):
lookup by the lowercased query email against the stored email. -/
def findUserByEmail (db : Db) (email : String) : Option DbUser :=
  db.users.find? fun u => u.email == jsToLowerCase email

/-- The user object embedded in the success bodies of the login and
register handlers: exactly id, email, name, createdAt. -/
structure PublicUser where
  id : String
  email : String
  name : Option String
  createdAt : Nat
  deriving DecidableEq, Repr

/-- A JSON body produced by the auth handlers: { error } or
{ message, user }. -/
inductive AuthBody where
  | err (error : String)
  | success (message : String) (user : PublicUser)
  deriving DecidableEq, Repr

/-- response.cookies.set("auth-token", token, options): the cookie name,
the signed token it carries, and the options object. -/
structure SetCookie where
  name : String
  value : SignedToken
  httpOnly : Bool
  secure : Bool
  sameSite : String
  maxAge : Nat
  path : String
  deriving DecidableEq, Repr

/-- An auth handler response: HTTP status, JSON body, and the cookie set
on it (none when no Set-Cookie is issued). -/
structure AuthResponse where
  status : Nat
  body : AuthBody
  cookie : Option SetCookie
  deriving DecidableEq, Repr

/-- The shared 401 answer of the login handler. -/
def invalidCredentials : AuthResponse :=
  { status := 401, body := AuthBody.err "Invalid email or password", cookie := none }

namespace LoginRoute

/-- POST /api/auth/login (src/src/app/api/auth/login/route.ts lines
13-101), after the zod parse of { email, password } succeeded.  compare
abstracts bcrypt.compare; unknown email, a user without an AspNetUser
record, and a failed compare all answer 401
{ error: "Invalid email or password" }; success signs a 24h HS256 token
from { userId, email, name }, answers 200 with
{ message, user: { id, email, name, createdAt } } and sets the
auth-token cookie. -/
def POST (compare : String → String → Bool) (db : Db) (nodeEnv secret : String)
    (now : Nat) (email password : String) : AuthResponse :=
  match findUserByEmail db email with
  | none => invalidCredentials
  | some user =>
    match user.aspNetUser with
    | none => invalidCredentials
    | some aspNet =>
      if compare password (aspNet.passwordHash.getD "") then
        { status := 200,
          body := AuthBody.success "Login successful"
            { id := user.id, email := user.email, name := user.name,
              createdAt := user.createdAt },
          cookie := some
            { name := "auth-token",
              value := signJwt
                { userId := user.id, email := user.email, name := user.name }
                secret now 86400,
              httpOnly := true,
              secure := nodeEnv == "production",
              sameSite := "strict",
              maxAge := 24 * 60 * 60,
              path := "/" } }
      else invalidCredentials

end LoginRoute

namespace RegisterRoute

/-- POST /api/auth/register (src/src/app/api/auth/register/route.ts
lines 13-99), after the zod parse of { fullName, email, password }
succeeded.  hash abstracts bcrypt.hash with cost 12, genStamp the
generated security stamp, freshId the id the database assigns, now the
db timestamp.  An existing user answers 409; otherwise the transaction
stores the User and AspNetUser records and the handler answers 201 with
{ message, user: { id, email, name, createdAt } } and no cookie. -/
def POST (hash : String → String) (genStamp freshId : String) (db : Db) (now : Nat)
    (fullName email password : String) : AuthResponse × Db :=
  match findUserByEmail db email with
  | some _ =>
    ({ status := 409, body := AuthBody.err "User with this email already exists",
       cookie := none }, db)
  | none =>
    let user : DbUser :=
      { id := freshId, email := jsToLowerCase email, name := some fullName, createdAt := now,
        aspNetUser := some { passwordHash := some (hash password), securityStamp := genStamp } }
    ({ status := 201,
       body := AuthBody.success "User registered successfully"
         { id := user.id, email := user.email, name := user.name,
           createdAt := user.createdAt },
       cookie := none },
     { users := db.users ++ [user] })

end RegisterRoute

/-- A structural decoder under which no string is a well formed JWT. -/
def decNone : String → Option SignedToken := fun _ => none

/-- A token whose 24h lifetime ended at time 10. -/
def tokExpired : SignedToken :=
  { claims := { userId := "u1", email := "alice@example.com", name := none },
    iat := 0, exp := 10, sigKey := "sec" }

/-- A decoder mapping the wire string "wire" to tokExpired. -/
def decExpired : String → Option SignedToken :=
  fun s => if s = "wire" then some tokExpired else none

/-- A token signed with "sec", expiring at 86400. -/
def tokGood : SignedToken :=
  { claims := { userId := "u1", email := "alice@example.com", name := none },
    iat := 0, exp := 86400, sigKey := "sec" }

/-- A decoder mapping the wire string "wire" to tokGood. -/
def decGood : String → Option SignedToken :=
  fun s => if s = "wire" then some tokGood else none

/-- A sample createToken argument. -/
def aliceUser : TokenUser :=
  { id := "u1", email := "alice@example.com", name := some "Alice" }

/-- A stored user with a credential record. -/
def hashedAlice : DbUser :=
  { id := "u1", email := "alice@example.com", name := some "Alice", createdAt := 17,
    aspNetUser := some { passwordHash := some "h", securityStamp := "s" } }

/-- A stored user without a credential record. -/
def noCredBob : DbUser :=
  { id := "u2", email := "bob@example.com", name := none, createdAt := 18,
    aspNetUser := none }

/-- A sample user table. -/
def dbDemo : Db := { users := [hashedAlice, noCredBob] }

/-- A sample bcrypt.compare: accepts exactly password "pw" against digest "h". -/
def compareDemo : String → String → Bool := fun p d => p == "pw" && d == "h"

/-- jsSplit never returns the empty list (JavaScript split on a
nonempty separator always yields at least one segment). -/
theorem jsSplit_ne_nil (sep : Char) (l : List Char) : jsSplit sep l ≠ [] := by
  cases l with
  | nil => simp [jsSplit]
  | cons c rest =>
    rw [jsSplit]
    cases h : jsSplit sep rest with
    | nil => simp
    | cons a t => by_cases hc : c = sep <;> simp [hc]

/-- A leading separator contributes an empty first segment. -/
theorem jsSplit_cons_sep (sep : Char) (l : List Char) :
    jsSplit sep (sep :: l) = [] :: jsSplit sep l := by
  rw [jsSplit]
  cases h : jsSplit sep l with
  | nil => exact absurd h (jsSplit_ne_nil sep l)
  | cons a t => simp

/-- A leading non-separator character joins the first segment. -/
theorem jsSplit_cons_ne (sep c : Char) (l : List Char) (hc : c ≠ sep)
    (hs : List Char) (t : List (List Char)) (h : jsSplit sep l = hs :: t) :
    jsSplit sep (c :: l) = (c :: hs) :: t := by
  rw [jsSplit, h]
  simp [hc]

/-- Splitting k ++ sep :: l where k has no separator: k is the first
segment, the rest is the split of l. -/
theorem jsSplit_append_no_sep (sep : Char) (k l : List Char) (hk : sep ∉ k) :
    jsSplit sep (k ++ sep :: l) = k :: jsSplit sep l := by
  induction k with
  | nil => simpa using jsSplit_cons_sep sep l
  | cons c k ih =>
    have hc : c ≠ sep := fun e => hk (e ▸ List.mem_cons_self c k)
    have hk2 : sep ∉ k := fun m => hk (List.mem_cons_of_mem c m)
    exact jsSplit_cons_ne sep c _ hc k (jsSplit sep l) (ih hk2)

/-- A key that occurs in no parsed pair is absent from the cookie
object. -/
theorem cookieGet_eq_none (ps : List (String × Option String)) (k : String)
    (h : ∀ kv ∈ ps, kv.1 ≠ k) : cookieGet ps k = none := by
  unfold cookieGet
  have hf : ps.filter (fun kv => kv.1 == k) = [] := by
    induction ps with
    | nil => rfl
    | cons a l ih =>
      have ha : (a.1 == k) = false := by
        have := h a (List.mem_cons_self a l)
        simp [this]
      rw [List.filter_cons_of_neg (by simp [ha])]
      exact ih fun kv hkv => h kv (List.mem_cons_of_mem a hkv)
  rw [hf]
  rfl

/-- A cookie header in which no pair is named auth-token yields no
token. -/
theorem getCookieToken_eq_none (header : String)
    (h : ∀ kv ∈ parseCookies header, kv.1 ≠ "auth-token") :
    getCookieToken header = none := by
  unfold getCookieToken
  rw [cookieGet_eq_none _ _ h]

/-- Claim C1: a token issued by createToken for claims C with secret s
verifies under s, by both the jose model and the jsonwebtoken model, at
every time strictly before issuance + 24h, returning exactly the claims
C; it is still valid at issuance + 24h - 1s and verification fails at
issuance + 24h + 1s. -/
theorem createToken_roundtrip_and_expiry (u : TokenUser) (secret : String)
    (now t : Nat) (h : t < now + 86400) :
    joseJwtVerify (createToken u secret now) secret t =
      some { userId := u.id, email := u.email, name := u.name } ∧
    jsonwebtokenVerify (createToken u secret now) secret t =
      some { userId := u.id, email := u.email, name := u.name } ∧
    joseJwtVerify (createToken u secret now) secret (now + 86400 - 1) =
      some { userId := u.id, email := u.email, name := u.name } ∧
    jsonwebtokenVerify (createToken u secret now) secret (now + 86400 - 1) =
      some { userId := u.id, email := u.email, name := u.name } ∧
    joseJwtVerify (createToken u secret now) secret (now + 86400 + 1) = none ∧
    jsonwebtokenVerify (createToken u secret now) secret (now + 86400 + 1) = none := by
  have h1 : now + 86400 - 1 < now + 86400 := by omega
  have h2 : ¬ (now + 86400 + 1 < now + 86400) := by omega
  refine ⟨?_, ?_, ?_, ?_, ?_, ?_⟩ <;>
    simp [createToken, signJwt, joseJwtVerify, jsonwebtokenVerify, h, h1, h2]

/-- Witness for C1 at a concrete claim set, secret and times. -/
theorem createToken_roundtrip_and_expiry_witness :
    (5 : Nat) < 0 + 86400 ∧
    joseJwtVerify (createToken aliceUser "sec" 0) "sec" 5 =
      some { userId := "u1", email := "alice@example.com", name := some "Alice" } ∧
    jsonwebtokenVerify (createToken aliceUser "sec" 0) "sec" 86401 = none := by
  have h := createToken_roundtrip_and_expiry aliceUser "sec" 0 5 (by decide)
  exact ⟨by decide, h.1, h.2.2.2.2.2⟩

/-- Claim C2: the session extraction functions getUserIdFromToken,
getUserIdFromTokenSync and getToken are total and return none in each
of the four failure cases: no cookie header; a cookie header with no
auth-token pair; an auth-token value that is not a well formed token;
a well formed but expired auth-token value.  All four cases produce the
same observable outcome, none. -/
theorem sessionExtractors_fail_closed (dec : String → Option SignedToken)
    (secret : String) (now : Nat) :
    (getUserIdFromToken dec ⟨none⟩ secret now = none ∧
      getUserIdFromTokenSync dec ⟨none⟩ secret now = none ∧
      getToken dec ⟨none⟩ secret now = none) ∧
    (∀ header, (∀ kv ∈ parseCookies header, kv.1 ≠ "auth-token") →
      getUserIdFromToken dec ⟨some header⟩ secret now = none ∧
      getUserIdFromTokenSync dec ⟨some header⟩ secret now = none ∧
      getToken dec ⟨some header⟩ secret now = none) ∧
    (∀ header tok, getCookieToken header = some tok → dec tok = none →
      getUserIdFromToken dec ⟨some header⟩ secret now = none ∧
      getUserIdFromTokenSync dec ⟨some header⟩ secret now = none ∧
      getToken dec ⟨some header⟩ secret now = none) ∧
    (∀ header tok t, getCookieToken header = some tok → dec tok = some t →
      t.exp ≤ now →
      getUserIdFromToken dec ⟨some header⟩ secret now = none ∧
      getUserIdFromTokenSync dec ⟨some header⟩ secret now = none ∧
      getToken dec ⟨some header⟩ secret now = none) := by
  refine ⟨⟨rfl, rfl, rfl⟩, ?_, ?_, ?_⟩
  · intro header h
    have hn := getCookieToken_eq_none header h
    exact ⟨by simp [getUserIdFromToken, hn], by simp [getUserIdFromTokenSync, hn],
      by simp [getToken, hn]⟩
  · intro header tok hct hdec
    refine ⟨?_, ?_, ?_⟩ <;>
      simp [getUserIdFromToken, getUserIdFromTokenSync, getToken, hct,
        joseJwtVerifyStr, jsonwebtokenVerifyStr, hdec]
  · intro header tok t hct hdec hexp
    have hnl : ¬ now < t.exp := by omega
    refine ⟨?_, ?_, ?_⟩ <;>
      simp [getUserIdFromToken, getUserIdFromTokenSync, getToken, hct,
        joseJwtVerifyStr, jsonwebtokenVerifyStr, hdec, joseJwtVerify,
        jsonwebtokenVerify, hnl]

/-- Witness for C2: all four failure cases at concrete requests. -/
theorem sessionExtractors_fail_closed_witness :
    getUserIdFromToken decExpired ⟨none⟩ "sec" 10 = none ∧
    ((∀ kv ∈ parseCookies "x=1", kv.1 ≠ "auth-token") ∧
      getToken decExpired ⟨some "x=1"⟩ "sec" 10 = none) ∧
    (getCookieToken "auth-token=junkwire" = some "junkwire" ∧
      decExpired "junkwire" = none ∧
      getUserIdFromTokenSync decExpired ⟨some "auth-token=junkwire"⟩ "sec" 10 = none) ∧
    (getCookieToken "auth-token=wire" = some "wire" ∧
      decExpired "wire" = some tokExpired ∧ tokExpired.exp ≤ 10 ∧
      getUserIdFromToken decExpired ⟨some "auth-token=wire"⟩ "sec" 10 = none) := by
  have h := sessionExtractors_fail_closed decExpired "sec" 10
  refine ⟨h.1.1, ⟨by decide, (h.2.1 "x=1" (by decide)).2.2⟩,
    ⟨by decide, by decide,
      (h.2.2.1 "auth-token=junkwire" "junkwire" (by decide) (by decide)).2.1⟩,
    ⟨by decide, by decide, by decide,
      (h.2.2.2 "auth-token=wire" "wire" tokExpired (by decide) (by decide) (by decide)).1⟩⟩

/-- Claim C3 counterexample: for the header auth-token=a=b the parser
extracts the value "a", not the entire remainder "a=b" after the first
"=", because JavaScript split("=") breaks at every "=" and the
destructuring keeps only element 1. -/
theorem cookieValue_not_first_equals_only :
    getCookieToken "auth-token=a=b" = some "a" ∧
    getCookieToken "auth-token=a=b" ≠ some "a=b" := by
  exact ⟨by decide, by decide⟩

/-- Claim C3 as amended: the parser splits the header on ";", trims each
piece, and splits each piece on EVERY "=", keeping segments 0 and 1, so
a value containing "=" is truncated at its second "=": the value
extracted from a trimmed piece k ++ "=" ++ a ++ "=" ++ b with k and a
free of "=" is a, the segment between the first and the second "=".
Malformed pairs (no "=") are recorded with an undefined value and never
abort the parse. -/
theorem cookieValue_between_first_two_equals :
    (∀ c k a b : List Char, jsTrim c = k ++ '=' :: (a ++ '=' :: b) →
      '=' ∉ k → '=' ∉ a →
      pieceKV c = (k.asString, some a.asString)) ∧
    getCookieToken "auth-token=a=b" = some "a" ∧
    getCookieToken "junk; auth-token=t" = some "t" ∧
    parseCookies "junk; auth-token=t; =x" =
      [("junk", none), ("auth-token", some "t"), ("", some "x")] := by
  refine ⟨?_, by decide, by decide, by decide⟩
  intro c k a b ht hk ha
  unfold pieceKV
  rw [ht, jsSplit_append_no_sep '=' k _ hk, jsSplit_append_no_sep '=' a b ha]
  simp

/-- Witness for the amended C3 at a concrete piece. -/
theorem cookieValue_between_first_two_equals_witness :
    jsTrim ("auth-token=a=b").data =
      ("auth-token").data ++ '=' :: (("a").data ++ '=' :: ("b").data) ∧
    pieceKV ("auth-token=a=b").data = ("auth-token", some "a") := by
  refine ⟨by decide, ?_⟩
  exact cookieValue_between_first_two_equals.1 ("auth-token=a=b").data
    ("auth-token").data ("a").data ("b").data (by decide) (by decide) (by decide)

/-- Claim C4: the per-request case analysis of the middleware: /login
always ALLOWs; /dashboard with no auth-token cookie redirects to
/login?redirect=/dashboard; /dashboard with a cookie failing
verification redirects to /login deleting the cookie; /dashboard with a
verifying cookie ALLOWs with the x-user-id and x-user-email headers set
from the verified payload. -/
theorem middleware_case_analysis (dec : String → Option SignedToken)
    (secret : String) (now : Nat) :
    (∀ cookie, middleware dec ⟨"/login", cookie⟩ secret now = MwResponse.next []) ∧
    middleware dec ⟨"/dashboard", none⟩ secret now =
      MwResponse.redirect ⟨"/login", some "/dashboard"⟩ false ∧
    (∀ tok, tok ≠ "" → joseJwtVerifyStr dec tok secret now = none →
      middleware dec ⟨"/dashboard", some tok⟩ secret now =
        MwResponse.redirect ⟨"/login", none⟩ true) ∧
    (∀ tok payload, tok ≠ "" → joseJwtVerifyStr dec tok secret now = some payload →
      middleware dec ⟨"/dashboard", some tok⟩ secret now =
        MwResponse.next [("x-user-id", payload.userId), ("x-user-email", payload.email)]) := by
  have hpubL : isPublicRoute "/login" = true := by decide
  have hpubD : isPublicRoute "/dashboard" = false := by decide
  have hproD : isProtectedRoute "/dashboard" = true := by decide
  refine ⟨?_, ?_, ?_, ?_⟩
  · intro cookie
    simp [middleware, hpubL]
  · simp [middleware, hpubD, hproD]
  · intro tok htok hv
    simp [middleware, hpubD, hproD, htok, hv]
  · intro tok payload htok hv
    simp [middleware, hpubD, hproD, htok, hv]

/-- Witness for C4: a verifying and a non-verifying concrete cookie on
/dashboard. -/
theorem middleware_case_analysis_witness :
    ("wire" : String) ≠ "" ∧
    joseJwtVerifyStr decGood "wire" "sec" 5 = some tokGood.claims ∧
    middleware decGood ⟨"/dashboard", some "wire"⟩ "sec" 5 =
      MwResponse.next [("x-user-id", "u1"), ("x-user-email", "alice@example.com")] ∧
    joseJwtVerifyStr decNone "bad" "sec" 5 = none ∧
    middleware decNone ⟨"/dashboard", some "bad"⟩ "sec" 5 =
      MwResponse.redirect ⟨"/login", none⟩ true := by
  refine ⟨by decide, by decide, ?_, by decide, ?_⟩
  · exact (middleware_case_analysis decGood "sec" 5).2.2.2 "wire" tokGood.claims
      (by decide) (by decide)
  · exact (middleware_case_analysis decNone "sec" 5).2.2.1 "bad" (by decide) (by decide)

/-- Claim C5: a path is public iff it equals a public entry or extends
one with "/"; the middleware checks publicness first and a public path
is ALLOWed with no headers whatever the cookie state, even if it also
matches a protected entry; a path matching neither set is also ALLOWed
(default open). -/
theorem middleware_public_wins :
    (∀ p, isPublicRoute p = true ↔
      ∃ route ∈ publicRoutes, p = route ∨ jsStartsWith p (route ++ "/") = true) ∧
    (∀ dec req secret now, isPublicRoute req.pathname = true →
      middleware dec req secret now = MwResponse.next []) ∧
    (∀ dec req secret now, isPublicRoute req.pathname = true →
      isProtectedRoute req.pathname = true →
      middleware dec req secret now = MwResponse.next []) ∧
    (∀ dec req secret now, isPublicRoute req.pathname = false →
      isProtectedRoute req.pathname = false →
      middleware dec req secret now = MwResponse.next []) := by
  refine ⟨?_, ?_, ?_, ?_⟩
  · intro p
    simp [isPublicRoute, List.any_eq_true, Bool.or_eq_true, beq_iff_eq]
  · intro dec req secret now h
    simp [middleware, h]
  · intro dec req secret now h _
    simp [middleware, h]
  · intro dec req secret now h1 h2
    simp [middleware, h1, h2]

/-- Witness for C5: /login ALLOWed with a cookie present, and an
unmatched path ALLOWed. -/
theorem middleware_public_wins_witness :
    isPublicRoute "/login" = true ∧
    middleware decNone ⟨"/login", some "anything"⟩ "sec" 0 = MwResponse.next [] ∧
    isPublicRoute "/unmatched" = false ∧
    isProtectedRoute "/unmatched" = false ∧
    middleware decNone ⟨"/unmatched", none⟩ "sec" 0 = MwResponse.next [] := by
  refine ⟨by decide, ?_, by decide, by decide, ?_⟩
  · exact middleware_public_wins.2.1 decNone ⟨"/login", some "anything"⟩ "sec" 0
      (by decide)
  · exact middleware_public_wins.2.2.2 decNone ⟨"/unmatched", none⟩ "sec" 0
      (by decide) (by decide)

/-- Claim C6 counterexample: on /dashboard with an auth-token cookie
that fails verification, the redirect carries NO redirect query
parameter: it is a bare /login redirect (with cookie deletion), not
/login?redirect=/dashboard. -/
theorem middleware_lost_redirect_param :
    middleware decNone ⟨"/dashboard", some "badtoken"⟩ "sec" 0 =
      MwResponse.redirect ⟨"/login", none⟩ true ∧
    middleware decNone ⟨"/dashboard", some "badtoken"⟩ "sec" 0 ≠
      MwResponse.redirect ⟨"/login", some "/dashboard"⟩ true := by
  exact ⟨by decide, by decide⟩

/-- Claim C6 as amended: on a protected path, only the no-cookie failure
carries the originally requested path as the redirect query parameter;
a cookie that fails verification yields a redirect to /login with no
redirect parameter, deleting the auth-token cookie. -/
theorem middleware_redirect_param_amended (dec : String → Option SignedToken)
    (secret : String) (now : Nat) (p : String)
    (hpub : isPublicRoute p = false) (hpro : isProtectedRoute p = true) :
    middleware dec ⟨p, none⟩ secret now =
      MwResponse.redirect ⟨"/login", some p⟩ false ∧
    (∀ tok, tok ≠ "" → joseJwtVerifyStr dec tok secret now = none →
      middleware dec ⟨p, some tok⟩ secret now =
        MwResponse.redirect ⟨"/login", none⟩ true) := by
  constructor
  · simp [middleware, hpub, hpro]
  · intro tok ht hv
    simp [middleware, hpub, hpro, ht, hv]

/-- Witness for the amended C6 on /settings. -/
theorem middleware_redirect_param_amended_witness :
    isPublicRoute "/settings" = false ∧
    isProtectedRoute "/settings" = true ∧
    middleware decNone ⟨"/settings", none⟩ "sec" 0 =
      MwResponse.redirect ⟨"/login", some "/settings"⟩ false := by
  refine ⟨by decide, by decide, ?_⟩
  exact (middleware_redirect_param_amended decNone "sec" 0 "/settings"
    (by decide) (by decide)).1

/-- Claim C7: every bad-credential login — unknown email, a user with
no credential record, or a failed password comparison — produces the
one constant response 401 { error: "Invalid email or password" }, so
the caller cannot tell the cases apart. -/
theorem login_bad_credentials_uniform (compare : String → String → Bool) (db : Db)
    (nodeEnv secret : String) (now : Nat) (email password : String) :
    (findUserByEmail db email = none →
      LoginRoute.POST compare db nodeEnv secret now email password = invalidCredentials) ∧
    (∀ u, findUserByEmail db email = some u → u.aspNetUser = none →
      LoginRoute.POST compare db nodeEnv secret now email password = invalidCredentials) ∧
    (∀ u a, findUserByEmail db email = some u → u.aspNetUser = some a →
      compare password (a.passwordHash.getD "") = false →
      LoginRoute.POST compare db nodeEnv secret now email password = invalidCredentials) ∧
    invalidCredentials.status = 401 ∧
    invalidCredentials.body = AuthBody.err "Invalid email or password" := by
  refine ⟨?_, ?_, ?_, rfl, rfl⟩
  · intro h
    simp [LoginRoute.POST, h]
  · intro u hu ha
    simp [LoginRoute.POST, hu, ha]
  · intro u a hu ha hc
    simp [LoginRoute.POST, hu, ha, hc]

/-- Witness for C7: the three bad-credential cases on a concrete user
table give the identical response. -/
theorem login_bad_credentials_uniform_witness :
    findUserByEmail dbDemo "carol@example.com" = none ∧
    LoginRoute.POST compareDemo dbDemo "test" "sec" 0 "carol@example.com" "pw" =
      invalidCredentials ∧
    findUserByEmail dbDemo "bob@example.com" = some noCredBob ∧
    LoginRoute.POST compareDemo dbDemo "test" "sec" 0 "bob@example.com" "pw" =
      invalidCredentials ∧
    compareDemo "wrong" "h" = false ∧
    LoginRoute.POST compareDemo dbDemo "test" "sec" 0 "alice@example.com" "wrong" =
      invalidCredentials := by
  refine ⟨by decide, ?_, by decide, ?_, by decide, ?_⟩
  · exact (login_bad_credentials_uniform compareDemo dbDemo "test" "sec" 0
      "carol@example.com" "pw").1 (by decide)
  · exact (login_bad_credentials_uniform compareDemo dbDemo "test" "sec" 0
      "bob@example.com" "pw").2.1 noCredBob (by decide) (by decide)
  · exact (login_bad_credentials_uniform compareDemo dbDemo "test" "sec" 0
      "alice@example.com" "wrong").2.2.1 hashedAlice ⟨some "h", "s"⟩
      (by decide) (by decide) (by decide)

/-- Claim C8: a successful login sets the auth-token cookie carrying
the freshly signed 24h session token, with httpOnly true, sameSite
strict, path /, maxAge 86400, and secure exactly when NODE_ENV is
production. -/
theorem login_success_cookie_attrs (compare : String → String → Bool) (db : Db)
    (nodeEnv secret : String) (now : Nat) (email password : String)
    (u : DbUser) (a : AspNetUser) (hu : findUserByEmail db email = some u)
    (ha : u.aspNetUser = some a)
    (hc : compare password (a.passwordHash.getD "") = true) :
    (LoginRoute.POST compare db nodeEnv secret now email password).cookie =
      some { name := "auth-token",
             value := signJwt { userId := u.id, email := u.email, name := u.name }
               secret now 86400,
             httpOnly := true,
             secure := nodeEnv == "production",
             sameSite := "strict",
             maxAge := 86400,
             path := "/" } ∧
    (∀ ck, (LoginRoute.POST compare db nodeEnv secret now email password).cookie =
        some ck → (ck.secure = true ↔ nodeEnv = "production")) := by
  have hmain : (LoginRoute.POST compare db nodeEnv secret now email password).cookie =
      some { name := "auth-token",
             value := signJwt { userId := u.id, email := u.email, name := u.name }
               secret now 86400,
             httpOnly := true,
             secure := nodeEnv == "production",
             sameSite := "strict",
             maxAge := 86400,
             path := "/" } := by
    simp [LoginRoute.POST, hu, ha, hc]
  refine ⟨hmain, ?_⟩
  intro ck hck
  rw [hmain] at hck
  have : ck = { name := "auth-token",
                value := signJwt { userId := u.id, email := u.email, name := u.name }
                  secret now 86400,
                httpOnly := true,
                secure := nodeEnv == "production",
                sameSite := "strict",
                maxAge := 86400,
                path := "/" } := (Option.some.inj hck).symm
  subst this
  simp [beq_iff_eq]

/-- Witness for C8: a successful concrete login in production mode. -/
theorem login_success_cookie_attrs_witness :
    findUserByEmail dbDemo "alice@example.com" = some hashedAlice ∧
    compareDemo "pw" "h" = true ∧
    (LoginRoute.POST compareDemo dbDemo "production" "sec" 7
        "alice@example.com" "pw").cookie =
      some { name := "auth-token",
             value := signJwt { userId := "u1", email := "alice@example.com", name := some "Alice" } "sec" 7 86400,
             httpOnly := true,
             secure := true,
             sameSite := "strict",
             maxAge := 86400,
             path := "/" } := by
  refine ⟨by decide, by decide, ?_⟩
  have h := login_success_cookie_attrs compareDemo dbDemo "production" "sec" 7
    "alice@example.com" "pw" hashedAlice ⟨some "h", "s"⟩
    (by decide) (by decide) (by decide)
  exact h.1

/-- Claim C9: protected matching is a bare string-prefix test, so paths
like /dashboard-public and /settingsX that extend a protected entry
without a "/" are protected (an absent cookie on them redirects to
login), while public matching demands an exact entry or an entry
extended by "/". -/
theorem protected_matching_bare_string_test :
    (∀ p, isProtectedRoute p = true ↔
      ∃ route ∈ protectedRoutes, jsStartsWith p route = true) ∧
    isProtectedRoute "/dashboard-public" = true ∧
    isProtectedRoute "/settingsX" = true ∧
    isPublicRoute "/dashboard-public" = false ∧
    isPublicRoute "/settingsX" = false ∧
    (∀ dec secret now, middleware dec ⟨"/dashboard-public", none⟩ secret now =
      MwResponse.redirect ⟨"/login", some "/dashboard-public"⟩ false) ∧
    (∀ dec secret now, middleware dec ⟨"/settingsX", none⟩ secret now =
      MwResponse.redirect ⟨"/login", some "/settingsX"⟩ false) ∧
    (∀ p, isPublicRoute p = true ↔
      ∃ route ∈ publicRoutes, p = route ∨ jsStartsWith p (route ++ "/") = true) := by
  have h1 : isPublicRoute "/dashboard-public" = false := by decide
  have h2 : isProtectedRoute "/dashboard-public" = true := by decide
  have h3 : isPublicRoute "/settingsX" = false := by decide
  have h4 : isProtectedRoute "/settingsX" = true := by decide
  refine ⟨?_, h2, h4, h1, h3, ?_, ?_, ?_⟩
  · intro p
    simp [isProtectedRoute, List.any_eq_true]
  · intro dec secret now
    simp [middleware, h1, h2]
  · intro dec secret now
    simp [middleware, h3, h4]
  · intro p
    simp [isPublicRoute, List.any_eq_true, Bool.or_eq_true, beq_iff_eq]

/-- Witness for C9: the bare-prefix membership at /dashboard-public and
the resulting redirect. -/
theorem protected_matching_bare_string_test_witness :
    jsStartsWith "/dashboard-public" "/dashboard" = true ∧
    ("/dashboard" : String) ∈ protectedRoutes ∧
    isProtectedRoute "/dashboard-public" = true ∧
    middleware decNone ⟨"/dashboard-public", none⟩ "sec" 0 =
      MwResponse.redirect ⟨"/login", some "/dashboard-public"⟩ false := by
  refine ⟨by decide, by decide, ?_, ?_⟩
  · exact (protected_matching_bare_string_test.1 "/dashboard-public").mpr
      ⟨"/dashboard", by decide, by decide⟩
  · exact protected_matching_bare_string_test.2.2.2.2.2.1 decNone "sec" 0

/-- Claim C10: the 201 register body and the 200 login body embed
exactly { id, email, name, createdAt } of the user record next to a
message string; the response is unchanged under any change of the hash
function or security stamp, so the stored passwordHash and
securityStamp never reach a response of these handlers. -/
theorem auth_success_bodies_minimal (hash : String → String)
    (genStamp freshId : String) (db : Db) (now : Nat)
    (fullName email password : String) (compare : String → String → Bool)
    (nodeEnv secret : String) (u : DbUser) (a : AspNetUser) :
    (findUserByEmail db email = none →
      (RegisterRoute.POST hash genStamp freshId db now fullName email password).1 =
        { status := 201,
          body := AuthBody.success "User registered successfully"
            { id := freshId, email := jsToLowerCase email, name := some fullName,
              createdAt := now },
          cookie := none }) ∧
    (∀ hash2 genStamp2,
      (RegisterRoute.POST hash genStamp freshId db now fullName email password).1 =
        (RegisterRoute.POST hash2 genStamp2 freshId db now fullName email password).1) ∧
    (findUserByEmail db email = some u → u.aspNetUser = some a →
      compare password (a.passwordHash.getD "") = true →
      (LoginRoute.POST compare db nodeEnv secret now email password).body =
        AuthBody.success "Login successful"
          { id := u.id, email := u.email, name := u.name,
            createdAt := u.createdAt }) := by
  refine ⟨?_, ?_, ?_⟩
  · intro h
    simp [RegisterRoute.POST, h]
  · intro hash2 genStamp2
    cases h : findUserByEmail db email <;> simp [RegisterRoute.POST, h]
  · intro hu ha hc
    simp [LoginRoute.POST, hu, ha, hc]

/-- Witness for C10: a concrete registration and a concrete login. -/
theorem auth_success_bodies_minimal_witness :
    findUserByEmail dbDemo "Carol@Example.com" = none ∧
    (RegisterRoute.POST (fun p => p ++ "#h") "stamp" "u9" dbDemo 99
        "Carol" "Carol@Example.com" "pw123").1 =
      { status := 201,
        body := AuthBody.success "User registered successfully"
          { id := "u9", email := "carol@example.com", name := some "Carol",
            createdAt := 99 },
        cookie := none } ∧
    compareDemo "pw" "h" = true ∧
    (LoginRoute.POST compareDemo dbDemo "test" "sec" 0
        "alice@example.com" "pw").body =
      AuthBody.success "Login successful"
        { id := "u1", email := "alice@example.com", name := some "Alice",
          createdAt := 17 } := by
  refine ⟨by decide, ?_, by decide, ?_⟩
  · exact (auth_success_bodies_minimal (fun p => p ++ "#h") "stamp" "u9" dbDemo 99
      "Carol" "Carol@Example.com" "pw123" compareDemo "test" "sec"
      hashedAlice ⟨some "h", "s"⟩).1 (by decide)
  · exact (auth_success_bodies_minimal (fun p => p ++ "#h") "stamp" "u9" dbDemo 0
      "Carol" "alice@example.com" "pw" compareDemo "test" "sec"
      hashedAlice ⟨some "h", "s"⟩).2.2 (by decide) (by decide) (by decide)
